import Mathlib

/-!
Verification of the dashboard connectivity core of the lifestyle-balance-board
repository: the `ApiService` HTTP client (`frontend/src/services/api.ts`) and
the `ApiTestComponent` UI state machine.

The embedding is shallow:

* JSON bodies are an inductive `Json` (numbers as rationals, so flooring
  `uptime` is meaningful); no schema validation is performed anywhere,
  matching the source.
* A `fetch` call either resolves to an `HttpResponse` (with its `ok` flag,
  numeric `status` and parsed `body`) or rejects with a thrown value.
  Thrown values are `Thrown.error msg` (an `Error`-shaped value, carrying
  its `message`) or `Thrown.other v` (any non-`Error` thrown value).
* The ambient network is a function `Network : String → FetchOutcome`
  giving each URL's outcome; the environment variable
  `NEXT_PUBLIC_API_BASE_URL` is an `Option String` passed at each call,
  mirroring that the source reads `process.env` on every call.
* `Promise.all` of the two calls is modelled with an explicit `SettleOrder`
  saying which of the two underlying promises settles first; when both
  reject, `Promise.all` rejects with the first-settling rejection.
* The React component's four `useState` cells become `ComponentState`;
  `testApiConnection` returns the synchronously-set pending state together
  with the state after the awaited promise settles, and `render` computes
  what the JSX displays.
-/

/-- A JSON value, as produced by `response.json()`. Numbers are rationals. -/
inductive Json where
  | null
  | bool (b : Bool)
  | num (q : ℚ)
  | str (s : String)
  | arr (items : List Json)
  | obj (fields : List (String × Json))

/-- JavaScript truthiness of a JSON value (used by the `&&` render guards). -/
def Json.truthy : Json → Bool
  | .null => false
  | .bool b => b
  | .num q => decide (q ≠ 0)
  | .str s => decide (s ≠ "")
  | .arr _ => true
  | .obj _ => true

/-- JavaScript property access `j.k`: field lookup on objects, `undefined`
(`none`) otherwise. -/
def Json.getField : Json → String → Option Json
  | .obj fields, k => fields.lookup k
  | _, _ => none

/-- A value thrown by / rejected into the client: either an `Error`-shaped
value with its `message`, or any non-`Error` value. -/
inductive Thrown where
  | error (message : String)
  | other (value : Json)

/-- The `Response` a resolved `fetch` yields: `ok` flag, numeric status and
parsed JSON body. -/
structure HttpResponse where
  ok : Bool
  status : Nat
  body : Json

/-- Outcome of one `fetch(url)`: resolved with a response, or rejected with a
thrown value (network failure). -/
inductive FetchOutcome where
  | resolved (r : HttpResponse)
  | rejected (t : Thrown)

/-- The ambient network: what `fetch` does at each URL. -/
abbrev Network := String → FetchOutcome

/-- `ConnectionTestResult` from `api.ts`: both payloads, present together by
construction. Bodies are unvalidated JSON, as in the source. -/
structure ConnectionTestResult where
  apiInfo : Json
  healthCheck : Json

/-- Which of the two concurrent calls of `testConnection` settles first. -/
inductive SettleOrder where
  | apiFirst
  | healthFirst
deriving DecidableEq

namespace ApiService

/-- `ApiService.getBaseUrl`:
`process.env.NEXT_PUBLIC_API_BASE_URL || "http://localhost:3001"`.
The `||` falls back on any falsy value, hence also on the empty string. -/
def getBaseUrl (env : Option String) : String :=
  match env with
  | some url => if url = "" then "http://localhost:3001" else url
  | none => "http://localhost:3001"

/-- `ApiService.getApiInfo`: `fetch(this.getBaseUrl())`; throw
`HTTP error! status: <status>` when `!response.ok`; else return
`response.json()`. A rejected fetch propagates unchanged. -/
def getApiInfo (env : Option String) (net : Network) : Except Thrown Json :=
  match net (getBaseUrl env) with
  | .rejected t => .error t
  | .resolved response =>
      if !response.ok then
        .error (.error ("HTTP error! status: " ++ toString response.status))
      else
        .ok response.body

/-- `ApiService.getHealthCheck`: same contract at
`` `${this.getBaseUrl()}/api/health` ``. -/
def getHealthCheck (env : Option String) (net : Network) : Except Thrown Json :=
  match net (getBaseUrl env ++ "/api/health") with
  | .rejected t => .error t
  | .resolved response =>
      if !response.ok then
        .error (.error ("HTTP error! status: " ++ toString response.status))
      else
        .ok response.body

/-- `ApiService.testConnection`:
`Promise.all([this.getApiInfo(), this.getHealthCheck()])`, then wrap the pair.
`Promise.all` fulfills with the pair when both fulfill, and rejects with the
first-settling rejection otherwise; `ord` records which call settles first,
which matters only when both reject. -/
def testConnection (env : Option String) (net : Network) (ord : SettleOrder) :
    Except Thrown ConnectionTestResult :=
  match getApiInfo env net, getHealthCheck env net, ord with
  | .ok apiInfo, .ok healthCheck, _ => .ok ⟨apiInfo, healthCheck⟩
  | .error t, .ok _, _ => .error t
  | .ok _, .error t, _ => .error t
  | .error t, .error _, .apiFirst => .error t
  | .error _, .error t, .healthFirst => .error t

end ApiService

/-- `ApiStatus` of the component: `'idle' | 'loading' | 'success' | 'error'`. -/
inductive ApiStatus where
  | idle
  | loading
  | success
  | error
deriving DecidableEq

/-- The four `useState` cells of `ApiTestComponent`. `apiData` and
`healthData` are unvalidated JSON (`Json.null` models the JS `null`);
`error` is the error-message cell. -/
structure ComponentState where
  apiStatus : ApiStatus
  apiData : Json
  healthData : Json
  error : Option String

/-- Initial component state: `idle`, all data cells `null`. -/
def initialState : ComponentState :=
  { apiStatus := .idle, apiData := .null, healthData := .null, error := none }

/-- The `catch` clause's message:
`err instanceof Error ? err.message : 'Unknown error occurred'`. -/
def caughtMessage : Thrown → String
  | .error message => message
  | .other _ => "Unknown error occurred"

/-- `testApiConnection` of `ApiTestComponent`, given the prior state and the
settlement of the awaited `ApiService.testConnection()` promise. The first
component is the state set synchronously before the `await`
(`loading`, all cells cleared); the second is the state after settlement. -/
def testApiConnection (s : ComponentState)
    (result : Except Thrown ConnectionTestResult) :
    ComponentState × ComponentState :=
  let pending : ComponentState :=
    { apiStatus := .loading, apiData := .null, healthData := .null, error := none }
  match result with
  | .ok r =>
      (pending,
        { apiStatus := .success, apiData := r.apiInfo,
          healthData := r.healthCheck, error := none })
  | .error t =>
      (pending,
        { apiStatus := .error, apiData := .null, healthData := .null,
          error := some (caughtMessage t) })

/-- What the JSX of `ApiTestComponent` displays for a given state. `none`
means the element does not render. -/
structure Rendered where
  buttonLabel : String
  buttonDisabled : Bool
  successVisible : Bool
  apiMessage : Option Json
  apiVersion : Option Json
  backendUrl : Option String
  healthVisible : Bool
  healthStatus : Option Json
  uptimeText : Option String
  errorVisible : Bool
  errorText : Option String

/-- The render function of `ApiTestComponent`: the success block is guarded by
`apiStatus === 'success' && apiData`, the health sub-block additionally by
`healthData`, the error block by `apiStatus === 'error'`; the backend URL is
`ApiService.getBaseUrl()` evaluated at render time; uptime renders as
`{Math.floor(healthData.uptime)}s`. -/
def render (env : Option String) (s : ComponentState) : Rendered :=
  let sv : Bool := s.apiStatus == ApiStatus.success && s.apiData.truthy
  let hv : Bool := sv && s.healthData.truthy
  { buttonLabel :=
      if s.apiStatus = ApiStatus.loading then "Testing Connection..."
      else "Test Backend Connection"
    buttonDisabled := s.apiStatus == ApiStatus.loading
    successVisible := sv
    apiMessage := if sv then s.apiData.getField "message" else none
    apiVersion := if sv then s.apiData.getField "version" else none
    backendUrl := if sv then some (ApiService.getBaseUrl env) else none
    healthVisible := hv
    healthStatus := if hv then s.healthData.getField "status" else none
    uptimeText :=
      if hv then
        match s.healthData.getField "uptime" with
        | some (Json.num q) => some (toString q.floor ++ "s")
        | _ => none
      else none
    errorVisible := s.apiStatus == ApiStatus.error
    errorText := if s.apiStatus = ApiStatus.error then s.error else none }

/-! ### Concrete fixtures (networks and payloads used by witnesses) -/

/-- The service-info body used by the repository's tests. -/
def infoFields : List (String × Json) :=
  [("message", .str "Lifestyle Balance Board API"), ("version", .str "1.0.0"),
   ("timestamp", .str "2025-08-12T20:00:00.000Z")]

/-- The service-info body as a JSON object. -/
def infoBody : Json := .obj infoFields

/-- The health body used by the repository's tests (`uptime` 3600). -/
def healthFields : List (String × Json) :=
  [("status", .str "healthy"), ("timestamp", .str "2025-08-12T20:00:00.000Z"),
   ("uptime", .num 3600)]

/-- The health body as a JSON object. -/
def healthBody : Json := .obj healthFields

/-- A network where both endpoints answer 200 with the test payloads. -/
def netHealthy : Network := fun url =>
  if url = "http://localhost:3001" then
    .resolved { ok := true, status := 200, body := infoBody }
  else if url = "http://localhost:3001/api/health" then
    .resolved { ok := true, status := 200, body := healthBody }
  else
    .resolved { ok := false, status := 404, body := .obj [("error", .str "Route not found")] }

/-- A network where every URL answers 500 with `ok` false. -/
def netStatus500 : Network := fun _ =>
  .resolved { ok := false, status := 500, body := .obj [("error", .str "Something went wrong!")] }

/-- A network where the info endpoint fails with 500 and every other URL
(in particular the health endpoint) fails with 503. -/
def netBothFail : Network := fun url =>
  if url = "http://localhost:3001" then
    .resolved { ok := false, status := 500, body := .null }
  else
    .resolved { ok := false, status := 503, body := .null }

/-! ### Helper lemmas -/

/-- A resolved response with `ok = false` makes `getApiInfo` throw the
formatted transport error. -/
theorem getApiInfo_transport (env : Option String) (net : Network) (r : HttpResponse)
    (hres : net (ApiService.getBaseUrl env) = .resolved r) (hok : r.ok = false) :
    ApiService.getApiInfo env net =
      .error (.error ("HTTP error! status: " ++ toString r.status)) := by
  simp [ApiService.getApiInfo, hres, hok]

/-- A resolved response with `ok = false` makes `getHealthCheck` throw the
formatted transport error. -/
theorem getHealthCheck_transport (env : Option String) (net : Network) (r : HttpResponse)
    (hres : net (ApiService.getBaseUrl env ++ "/api/health") = .resolved r) (hok : r.ok = false) :
    ApiService.getHealthCheck env net =
      .error (.error ("HTTP error! status: " ++ toString r.status)) := by
  simp [ApiService.getHealthCheck, hres, hok]

/-- The transport-error message never coincides with the UI fallback string
(the former starts with an H, the latter with a U). -/
theorem httpErrorMsg_ne_fallback (n : Nat) :
    "HTTP error! status: " ++ toString n ≠ "Unknown error occurred" := by
  intro h
  have hdata : ("HTTP error! status: " ++ toString n).data =
      "Unknown error occurred".data := by rw [h]
  rw [String.data_append] at hdata
  have hH : "HTTP error! status: ".data = 'H' :: "TTP error! status: ".data := rfl
  have hU : "Unknown error occurred".data = 'U' :: "nknown error occurred".data := rfl
  rw [hH, hU, List.cons_append] at hdata
  injection hdata with h1 h2
  exact absurd h1 (by decide)

/-! ### Claim theorems -/

/-- C2: for every response with `ok = false` and status `S`, both
`getApiInfo` and `getHealthCheck` fail with a thrown error whose message is
exactly `HTTP error! status: S`; the failure is surfaced to the caller
(the call's result IS that error — nothing is retried or swallowed). -/
theorem transport_failure_message_exact (env : Option String) (net : Network)
    (r : HttpResponse) (hok : r.ok = false) :
    (net (ApiService.getBaseUrl env) = .resolved r →
      ApiService.getApiInfo env net =
        .error (.error ("HTTP error! status: " ++ toString r.status)))
    ∧ (net (ApiService.getBaseUrl env ++ "/api/health") = .resolved r →
      ApiService.getHealthCheck env net =
        .error (.error ("HTTP error! status: " ++ toString r.status))) :=
  ⟨fun hres => getApiInfo_transport env net r hres hok,
   fun hres => getHealthCheck_transport env net r hres hok⟩

/-- Witness for C2 at a concrete 500 response. -/
theorem transport_failure_message_exact_witness :
    ApiService.getApiInfo none netStatus500 =
      .error (.error "HTTP error! status: 500") :=
  (transport_failure_message_exact none netStatus500
      { ok := false, status := 500, body := .obj [("error", .str "Something went wrong!")] }
      rfl).1 rfl

/-- C6: for every `ok = true` response, `getApiInfo` returns the parsed body
verbatim from its GET to the base URL, and `getHealthCheck` does the same
from its GET to `<baseUrl>/api/health`. -/
theorem ok_body_returned_verbatim (env : Option String) (net : Network)
    (r₁ r₂ : HttpResponse)
    (h₁ : net (ApiService.getBaseUrl env) = .resolved r₁) (hok₁ : r₁.ok = true)
    (h₂ : net (ApiService.getBaseUrl env ++ "/api/health") = .resolved r₂)
    (hok₂ : r₂.ok = true) :
    ApiService.getApiInfo env net = .ok r₁.body
    ∧ ApiService.getHealthCheck env net = .ok r₂.body := by
  constructor
  · simp [ApiService.getApiInfo, h₁, hok₁]
  · simp [ApiService.getHealthCheck, h₂, hok₂]

/-- Witness for C6: the test payloads round-trip exactly. -/
theorem ok_body_returned_verbatim_witness :
    ApiService.getApiInfo none netHealthy = .ok infoBody
    ∧ ApiService.getHealthCheck none netHealthy = .ok healthBody :=
  ok_body_returned_verbatim none netHealthy
    { ok := true, status := 200, body := infoBody }
    { ok := true, status := 200, body := healthBody }
    rfl rfl rfl rfl

/-- C8: `getBaseUrl` returns the configured environment value when it is set
to a non-empty string, and exactly `http://localhost:3001` when it is unset.
(The environment is an argument of every call in this embedding, mirroring
that the source reads `process.env` afresh on each call — nothing is
cached.) -/
theorem getBaseUrl_env_or_default (u : String) (hu : u ≠ "") :
    ApiService.getBaseUrl (some u) = u
    ∧ ApiService.getBaseUrl none = "http://localhost:3001" := by
  constructor
  · simp [ApiService.getBaseUrl, hu]
  · rfl

/-- Witness for C8 at the production URL used in the repository's tests. -/
theorem getBaseUrl_env_or_default_witness :
    ApiService.getBaseUrl (some "https://production-api.com") = "https://production-api.com"
    ∧ ApiService.getBaseUrl none = "http://localhost:3001" :=
  getBaseUrl_env_or_default "https://production-api.com" (by decide)

/-- C1: `testConnection` fulfills exactly when both underlying calls
succeed, and then with the full `{apiInfo, healthCheck}` pair (both fields
are the two calls' bodies — never a partial object); when exactly one call
fails, the composite fails with that call's error; every composite failure
is the error of one of the two calls. -/
theorem testConnection_combined_iff_both_succeed (env : Option String)
    (net : Network) (ord : SettleOrder) :
    (∀ r, ApiService.testConnection env net ord = .ok r →
      ApiService.getApiInfo env net = .ok r.apiInfo ∧
      ApiService.getHealthCheck env net = .ok r.healthCheck)
    ∧ ((∃ r, ApiService.testConnection env net ord = .ok r) ↔
        (∃ a, ApiService.getApiInfo env net = .ok a) ∧
        (∃ b, ApiService.getHealthCheck env net = .ok b))
    ∧ (∀ t, ApiService.getApiInfo env net = .error t →
        (∃ b, ApiService.getHealthCheck env net = .ok b) →
        ApiService.testConnection env net ord = .error t)
    ∧ (∀ t, ApiService.getHealthCheck env net = .error t →
        (∃ a, ApiService.getApiInfo env net = .ok a) →
        ApiService.testConnection env net ord = .error t)
    ∧ (∀ t, ApiService.testConnection env net ord = .error t →
        ApiService.getApiInfo env net = .error t ∨
        ApiService.getHealthCheck env net = .error t) := by
  cases h₁ : ApiService.getApiInfo env net <;>
    cases h₂ : ApiService.getHealthCheck env net <;>
      cases ord <;>
        simp [ApiService.testConnection, h₁, h₂]

/-- Witness for C1: with both endpoints healthy, the composite fulfills and
carries exactly the two bodies. -/
theorem testConnection_combined_iff_both_succeed_witness :
    ApiService.getApiInfo none netHealthy = .ok infoBody
    ∧ ApiService.getHealthCheck none netHealthy = .ok healthBody :=
  (testConnection_combined_iff_both_succeed none netHealthy .apiFirst).1
    ⟨infoBody, healthBody⟩ rfl

/-- C5 counterexample: when the info call fails with 500 and the health call
fails with 503, swapping which call settles first changes the composite
outcome (`Promise.all` rejects with the first-settling rejection), so the
outcome is NOT independent of completion order for every pair of outcomes. -/
theorem testConnection_order_counterexample :
    ApiService.testConnection none netBothFail .apiFirst ≠
      ApiService.testConnection none netBothFail .healthFirst := by
  have ha : ApiService.testConnection none netBothFail .apiFirst =
      .error (.error "HTTP error! status: 500") := rfl
  have hh : ApiService.testConnection none netBothFail .healthFirst =
      .error (.error "HTTP error! status: 503") := rfl
  rw [ha, hh]
  intro h
  injection h with h₁
  injection h₁ with h₂
  exact absurd h₂ (by decide)

/-- C5 amended: the composite outcome is independent of which call settles
first whenever at least one of the two calls succeeds (or both fail with
the same error); only a double failure with two different errors is
order-dependent. -/
theorem testConnection_order_independent (env : Option String) (net : Network)
    (h : (∃ a, ApiService.getApiInfo env net = .ok a) ∨
         (∃ b, ApiService.getHealthCheck env net = .ok b) ∨
         ApiService.getApiInfo env net = ApiService.getHealthCheck env net) :
    ApiService.testConnection env net .apiFirst =
      ApiService.testConnection env net .healthFirst := by
  cases h₁ : ApiService.getApiInfo env net with
  | ok a =>
      cases h₂ : ApiService.getHealthCheck env net <;>
        simp [ApiService.testConnection, h₁, h₂]
  | error t₁ =>
      cases h₂ : ApiService.getHealthCheck env net with
      | ok b => simp [ApiService.testConnection, h₁, h₂]
      | error t₂ =>
          rw [h₁, h₂] at h
          rcases h with ⟨a, ha⟩ | ⟨b, hb⟩ | heq
          · exact absurd ha (by simp)
          · exact absurd hb (by simp)
          · injection heq with ht
            rw [ht] at h₁
            simp [ApiService.testConnection, h₁, h₂]

/-- Witness for C5 amended: with both endpoints healthy the two settlement
orders agree. -/
theorem testConnection_order_independent_witness :
    ApiService.testConnection none netHealthy .apiFirst =
      ApiService.testConnection none netHealthy .healthFirst :=
  testConnection_order_independent none netHealthy (Or.inl ⟨infoBody, rfl⟩)

/-- C3: for every settlement of the awaited promise, the component leaves
`loading` for a terminal state: fulfillment yields `success` carrying the
result's two payloads; rejection with an `Error`-shaped value yields
`error` carrying exactly that error's message; rejection with a non-`Error`
value yields `error` carrying the fixed fallback string. -/
theorem ui_settles_to_terminal_state (s : ComponentState)
    (result : Except Thrown ConnectionTestResult) :
    ((testApiConnection s result).2.apiStatus = ApiStatus.success ∨
      (testApiConnection s result).2.apiStatus = ApiStatus.error)
    ∧ (∀ r, result = .ok r → (testApiConnection s result).2 =
        { apiStatus := .success, apiData := r.apiInfo,
          healthData := r.healthCheck, error := none })
    ∧ (∀ m, result = .error (.error m) → (testApiConnection s result).2 =
        { apiStatus := .error, apiData := .null, healthData := .null,
          error := some m })
    ∧ (∀ v, result = .error (.other v) → (testApiConnection s result).2 =
        { apiStatus := .error, apiData := .null, healthData := .null,
          error := some "Unknown error occurred" }) := by
  cases result with
  | ok r => simp [testApiConnection]
  | error t => cases t <;> simp [testApiConnection, caughtMessage]

/-- Witness for C3: a fulfilled check ends in `success` with the payloads. -/
theorem ui_settles_to_terminal_state_witness :
    (testApiConnection initialState (.ok ⟨infoBody, healthBody⟩)).2 =
      { apiStatus := .success, apiData := infoBody,
        healthData := healthBody, error := none } :=
  (ui_settles_to_terminal_state initialState (.ok ⟨infoBody, healthBody⟩)).2.1
    ⟨infoBody, healthBody⟩ rfl

/-- C4: for every prior state and every eventual settlement, the state set
synchronously at trigger time (before the promise resolves) is `loading`
with the success payload, health payload and error message all cleared, so
neither the success display nor the error display is visible while the new
call is pending. -/
theorem trigger_clears_state_synchronously (env : Option String)
    (s : ComponentState) (result : Except Thrown ConnectionTestResult) :
    (testApiConnection s result).1 =
      { apiStatus := .loading, apiData := .null, healthData := .null,
        error := none }
    ∧ (render env (testApiConnection s result).1).successVisible = false
    ∧ (render env (testApiConnection s result).1).errorVisible = false
    ∧ (render env (testApiConnection s result).1).buttonDisabled = true := by
  cases result <;> simp [testApiConnection, render, Json.truthy]

/-- C7: in the `success` state (with an object payload, hence truthy), the
component renders the message and version fields, and the backend URL
recomputed from the environment at render time; the health fields (status
and floored uptime with an `s` suffix) render if and only if a health
payload is present (an object), and when the health payload is `null` they
do not render while the success fields still do and no error is shown. -/
theorem success_rendering_contract (env : Option String) (s : ComponentState)
    (apiFields : List (String × Json))
    (hstat : s.apiStatus = ApiStatus.success)
    (hdata : s.apiData = Json.obj apiFields)
    (hhd : s.healthData = Json.null ∨ ∃ hFields, s.healthData = Json.obj hFields) :
    (render env s).successVisible = true
    ∧ (render env s).apiMessage = (Json.obj apiFields).getField "message"
    ∧ (render env s).apiVersion = (Json.obj apiFields).getField "version"
    ∧ (render env s).backendUrl = some (ApiService.getBaseUrl env)
    ∧ ((render env s).healthVisible = true ↔
        ∃ hFields, s.healthData = Json.obj hFields)
    ∧ (s.healthData = Json.null →
        (render env s).healthStatus = none ∧ (render env s).uptimeText = none)
    ∧ (∀ hFields, s.healthData = Json.obj hFields →
        (render env s).healthStatus = hFields.lookup "status")
    ∧ (∀ hFields q, s.healthData = Json.obj hFields →
        hFields.lookup "uptime" = some (Json.num q) →
        (render env s).uptimeText = some (toString q.floor ++ "s"))
    ∧ (render env s).errorVisible = false := by
  rcases hhd with hnull | ⟨hFields, hobj⟩
  · simp [render, hstat, hdata, hnull, Json.truthy, Json.getField]
  · simp [render, hstat, hdata, hobj, Json.truthy, Json.getField]
    intro hFields₁ q heq hlook
    subst heq
    rw [hlook]

/-- Witness for C7 at the test payloads: uptime 3600 renders as `3600s`,
the backend URL is the localhost default, and the health fields render. -/
theorem success_rendering_contract_witness :
    (render none ⟨.success, infoBody, healthBody, none⟩).uptimeText = some "3600s"
    ∧ (render none ⟨.success, infoBody, healthBody, none⟩).backendUrl =
        some "http://localhost:3001"
    ∧ (render none ⟨.success, infoBody, healthBody, none⟩).healthStatus =
        some (.str "healthy") := by
  have h := success_rendering_contract none ⟨.success, infoBody, healthBody, none⟩
    infoFields rfl rfl (Or.inr ⟨healthFields, rfl⟩)
  refine ⟨?_, ?_, ?_⟩
  · have hu := h.2.2.2.2.2.2.2.1 healthFields 3600 rfl rfl
    rw [hu]
    rfl
  · exact h.2.2.2.1
  · exact h.2.2.2.2.2.2.1 healthFields rfl

/-- C9: the success display renders only when the state is `success` AND the
stored payload is truthy (in particular non-null); consequently, when the
check fulfills with a `null` apiInfo — possible since no schema validation
is performed — the component ends in the `success` state yet renders
neither the success display nor the error display. -/
theorem success_display_needs_truthy_payload (env : Option String)
    (s : ComponentState)
    (hvis : (render env s).successVisible = true) :
    (s.apiStatus = ApiStatus.success ∧ s.apiData.truthy = true)
    ∧ ((testApiConnection initialState (.ok ⟨Json.null, healthBody⟩)).2.apiStatus =
          ApiStatus.success
        ∧ (render env (testApiConnection initialState
            (.ok ⟨Json.null, healthBody⟩)).2).successVisible = false
        ∧ (render env (testApiConnection initialState
            (.ok ⟨Json.null, healthBody⟩)).2).errorVisible = false) := by
  constructor
  · simpa [render] using hvis
  · simp [testApiConnection, render, Json.truthy]

/-- Witness for C9 at a concrete visible success state. -/
theorem success_display_needs_truthy_payload_witness :
    ((⟨.success, infoBody, .null, none⟩ : ComponentState).apiStatus = ApiStatus.success
      ∧ (⟨.success, infoBody, .null, none⟩ : ComponentState).apiData.truthy = true)
    ∧ ((testApiConnection initialState (.ok ⟨Json.null, healthBody⟩)).2.apiStatus =
          ApiStatus.success
        ∧ (render none (testApiConnection initialState
            (.ok ⟨Json.null, healthBody⟩)).2).successVisible = false
        ∧ (render none (testApiConnection initialState
            (.ok ⟨Json.null, healthBody⟩)).2).errorVisible = false) :=
  success_display_needs_truthy_payload none ⟨.success, infoBody, .null, none⟩ rfl

/-- C10: every failure the client constructs from an `ok = false` response
is `Error`-shaped with message `HTTP error! status: <code>`, and that
message is never the fallback string; the catch clause produces the
fallback string through its non-`Error` branch only — an `Error`-shaped
rejection yielding that text can only carry it verbatim. So the fallback is
reachable only from a non-`Error` fetch rejection, never from the client's
status check. -/
theorem fallback_unreachable_from_transport (env : Option String)
    (net : Network) (r : HttpResponse) (hok : r.ok = false) :
    (net (ApiService.getBaseUrl env) = .resolved r →
      ApiService.getApiInfo env net =
        .error (.error ("HTTP error! status: " ++ toString r.status)))
    ∧ (net (ApiService.getBaseUrl env ++ "/api/health") = .resolved r →
      ApiService.getHealthCheck env net =
        .error (.error ("HTTP error! status: " ++ toString r.status)))
    ∧ (∀ n : Nat, caughtMessage (.error ("HTTP error! status: " ++ toString n)) =
          "HTTP error! status: " ++ toString n
        ∧ "HTTP error! status: " ++ toString n ≠ "Unknown error occurred")
    ∧ (∀ t, caughtMessage t = "Unknown error occurred" →
        (∃ v, t = Thrown.other v) ∨ t = Thrown.error "Unknown error occurred")
    ∧ (∀ v, caughtMessage (Thrown.other v) = "Unknown error occurred") := by
  refine ⟨fun hres => getApiInfo_transport env net r hres hok,
    fun hres => getHealthCheck_transport env net r hres hok,
    fun n => ⟨rfl, httpErrorMsg_ne_fallback n⟩, ?_, fun v => rfl⟩
  intro t ht
  cases t with
  | error m => right; rw [← ht]; rfl
  | other v => exact Or.inl ⟨v, rfl⟩

/-- Witness for C10: a 500 status check yields the exact transport message,
which differs from the fallback; a non-`Error` rejection yields the
fallback. -/
theorem fallback_unreachable_from_transport_witness :
    ApiService.getApiInfo none netStatus500 = .error (.error "HTTP error! status: 500")
    ∧ caughtMessage (.error ("HTTP error! status: " ++ toString 500)) =
        "HTTP error! status: " ++ toString 500
    ∧ caughtMessage (Thrown.other (.str "boom")) = "Unknown error occurred" := by
  have h := fallback_unreachable_from_transport none netStatus500
    { ok := false, status := 500, body := .obj [("error", .str "Something went wrong!")] }
    rfl
  exact ⟨h.1 rfl, (h.2.2.1 500).1, h.2.2.2.2 (.str "boom")⟩
